import Mathlib

/-!
Shallow embedding of the point-of-sale logic of the StoreFlow management
application (source: `src/unnamed/part_008`, the "New Sale" page, together
with the customer data model of `src/unnamed/part_007`).

JavaScript numbers are modelled as exact rationals (`ℚ`) for prices and
monetary amounts, and as integers (`ℤ`) for quantities and stock counts
(the source only ever adds or subtracts whole units of stock).  Nullable
values are modelled with `Option`, and the JS truthiness test used on
optional strings is modelled explicitly.  Toast notifications are modelled
as a list of emitted `Toast` values.
-/

namespace StoreFlow

/-- Discount mode of a customer: the `discount_type` column,
`"percentage" | "fixed"`. -/
inductive DiscountType where
  | percentage
  | fixed
deriving DecidableEq

/-- Customer type, informational only: `"regular" | "vip" | "wholesale"`. -/
inductive CustomerType where
  | regular
  | vip
  | wholesale
deriving DecidableEq

/-- Payment methods offered by the sale page: `"cash" | "card" | "other"`. -/
inductive PaymentMethod where
  | cash
  | card
  | other
deriving DecidableEq

/-- Operator roles checked by the source (`profile?.role === "owner"`,
`profile?.role === "receptionist"`). -/
inductive Role where
  | owner
  | receptionist
deriving DecidableEq

/-- A row of the `products` table, restricted to the fields the sale page
reads. -/
structure Product where
  id : String
  store_id : String
  name : String
  sku : Option String
  category : Option String
  buying_price : ℚ
  selling_price : ℚ
  stock : ℤ
deriving DecidableEq

/-- A row of the `customers` table, restricted to the fields the sale page
reads. -/
structure Customer where
  id : String
  store_id : String
  name : String
  phone : Option String
  customer_type : CustomerType
  discount_type : DiscountType
  discount_percentage : ℚ
  discount_fixed_amount : ℚ
deriving DecidableEq

/-- `type CartItem = Product & { quantity: number }` (part_008 line 352). -/
structure CartItem extends Product where
  quantity : ℤ
deriving DecidableEq

/-- Severity of a toast notification (`toast.success` / `toast.error` /
`toast.info` from the `sonner` library). -/
inductive ToastKind where
  | success
  | error
  | info
deriving DecidableEq

/-- A toast notification emitted by an operation. -/
structure Toast where
  kind : ToastKind
  message : String
deriving DecidableEq

/-- The `toast.error` message shown when a requested quantity exceeds stock:
``toast.error(`Only ${stock} units available`)``. -/
def insufficientStockToast (st : ℤ) : Toast :=
  Toast.mk ToastKind.error s!"Only {st} units available"

/-- The `toast.success` message of `addToCart` (part_008 line 454):
``toast.success(`Added ${product.name} to cart`)``. -/
def addedToCartToast (product : Product) : Toast :=
  Toast.mk ToastKind.success (let n := product.name; s!"Added {n} to cart")

/-- `addToCart` (part_008 lines 437–455).  Returns the new cart together
with the toasts emitted.  Note the `toast.success` on line 454 runs
unconditionally, after `setCart`. -/
def addToCart (cart : List CartItem) (product : Product) :
    List CartItem × List Toast :=
  let added := addedToCartToast product
  match cart.find? (fun item => item.id == product.id) with
  | some existing =>
    if existing.quantity ≥ product.stock then
      (cart, [insufficientStockToast product.stock, added])
    else
      (cart.map (fun item =>
        if item.id == product.id then
          { item with quantity := item.quantity + 1 }
        else item), [added])
  | none =>
    (cart ++ [{ toProduct := product, quantity := 1 }], [added])

/-- `removeFromCart` (part_008 lines 457–460). -/
def removeFromCart (cart : List CartItem) (productId : String) :
    List CartItem × List Toast :=
  (cart.filter (fun item => item.id != productId),
   [Toast.mk ToastKind.info "Item removed from cart"])

/-- The body of the `map` inside `updateQuantity` (part_008 lines 465–478):
an item either survives (possibly with a new quantity) or maps to `null`,
and may emit a toast. -/
def updateQuantityItem (productId : String) (change : ℤ) (item : CartItem) :
    Option CartItem × List Toast :=
  if item.id == productId then
    let newQuantity := item.quantity + change
    if newQuantity ≤ 0 then (none, [])
    else if newQuantity > item.stock then
      (some item, [insufficientStockToast item.stock])
    else (some { item with quantity := newQuantity }, [])
  else (some item, [])

/-- `updateQuantity` (part_008 lines 462–481): map each item, then filter
out the `null`s. -/
def updateQuantity (cart : List CartItem) (productId : String) (change : ℤ) :
    List CartItem × List Toast :=
  (cart.filterMap (fun item => (updateQuantityItem productId change item).1),
   (cart.map (fun item => (updateQuantityItem productId change item).2)).flatten)

/-- `calculateSubtotal` (part_008 lines 483–488). -/
def calculateSubtotal (cart : List CartItem) : ℚ :=
  cart.foldl (fun sum item => sum + item.selling_price * (item.quantity : ℚ)) 0

/-- `calculateDiscount` (part_008 lines 491–502).  The `else` branch of the
source covers exactly the `"fixed"` discount type. -/
def calculateDiscount (selectedCustomer : Option Customer)
    (cart : List CartItem) : ℚ :=
  match selectedCustomer with
  | none => 0
  | some customer =>
    let subtotal := calculateSubtotal cart
    match customer.discount_type with
    | DiscountType.percentage => subtotal * customer.discount_percentage / 100
    | DiscountType.fixed => min customer.discount_fixed_amount subtotal

/-- `calculateTotal` (part_008 lines 504–506). -/
def calculateTotal (selectedCustomer : Option Customer)
    (cart : List CartItem) : ℚ :=
  calculateSubtotal cart - calculateDiscount selectedCustomer cart

/-- `calculateProfit` (part_008 lines 508–516). -/
def calculateProfit (selectedCustomer : Option Customer)
    (cart : List CartItem) : ℚ :=
  (cart.foldl (fun sum item =>
    sum + (item.selling_price - item.buying_price) * (item.quantity : ℚ)) 0)
    - calculateDiscount selectedCustomer cart

/-- The operator profile exposed by the auth provider, restricted to the
fields the sale page reads. -/
structure Profile where
  id : String
  role : Role
  store_id : Option String
deriving DecidableEq

/-- JS truthiness of an optional string (`null`/`undefined` and `""` are
falsy). -/
def truthyStr : Option String → Bool
  | none => false
  | some s => !(s == "")

/-- The row inserted into `sales` (part_008 lines 544–557). -/
structure SaleRow where
  store_id : String
  total_amount : ℚ
  profit : ℚ
  payment_method : PaymentMethod
  sold_by : Option String
  customer_id : Option String
  discount_amount : ℚ
  original_amount : ℚ
deriving DecidableEq

/-- A row inserted into `sale_items` (part_008 lines 562–570). -/
structure SaleItemRow where
  sale_id : String
  product_id : String
  quantity : ℤ
  price_at_sale : ℚ
  cost_at_sale : ℚ
  subtotal : ℚ
  profit : ℚ
deriving DecidableEq

/-- The in-memory state of the sale page that `handleCompleteSale` reads
and writes. -/
structure POSState where
  products : List Product
  customers : List Customer
  cart : List CartItem
  selectedCustomer : Option Customer
  paymentMethod : PaymentMethod
deriving DecidableEq

/-- The store id resolution of `handleCompleteSale` (part_008 lines
533–536): the operator's assigned store, overridden by the first cart
item's store for owners. -/
def saleStoreId (profile : Option Profile) (s : POSState) : Option String :=
  if profile.map Profile.role = some Role.owner then
    (s.cart.head?).map (fun item => item.store_id)
  else profile.bind Profile.store_id

/-- `customer_id: selectedCustomer?.id || null` (part_008 line 552):
a falsy (empty) id also maps to `null`. -/
def saleCustomerId (selectedCustomer : Option Customer) : Option String :=
  match selectedCustomer with
  | some c => if c.id == "" then none else some c.id
  | none => none

/-- The sale row built by `handleCompleteSale` (part_008 lines 544–557). -/
def mkSaleRow (profile : Option Profile) (s : POSState) (st : String) :
    SaleRow :=
  { store_id := st
    total_amount := calculateTotal s.selectedCustomer s.cart
    profit := calculateProfit s.selectedCustomer s.cart
    payment_method := s.paymentMethod
    sold_by := profile.map Profile.id
    customer_id := saleCustomerId s.selectedCustomer
    discount_amount := calculateDiscount s.selectedCustomer s.cart
    original_amount := calculateSubtotal s.cart }

/-- The sale-item rows built by `handleCompleteSale` (part_008 lines
562–570): one per cart line. -/
def soldSaleItems (saleId : String) (cart : List CartItem) :
    List SaleItemRow :=
  cart.map (fun item =>
    { sale_id := saleId
      product_id := item.id
      quantity := item.quantity
      price_at_sale := item.selling_price
      cost_at_sale := item.buying_price
      subtotal := item.selling_price * (item.quantity : ℚ)
      profit := (item.selling_price - item.buying_price)
        * (item.quantity : ℚ) })

/-- The optimistic stock update of `handleCompleteSale` (part_008 lines
579–590): decrement each sold product's stock, leave the rest alone. -/
def applyOptimisticStock (cart : List CartItem) (products : List Product) :
    List Product :=
  products.map (fun product =>
    match cart.find? (fun item => item.id == product.id) with
    | some soldItem =>
      { product with stock := product.stock - soldItem.quantity }
    | none => product)

/-- The success path of `handleCompleteSale` (part_008 lines 518–616),
parameterised by the sale identifier generated by the backend.  Returns
`none` when the handler bails out before writing (empty cart, or no
resolvable store id); otherwise returns the inserted `SaleRow`, the
inserted `SaleItemRow`s, and the post-success state (optimistic stock
update, cart/customer/payment reset).  Remote-call failures and toast
messages of this handler are not modelled. -/
def handleCompleteSale (profile : Option Profile) (saleId : String)
    (s : POSState) : Option (SaleRow × List SaleItemRow × POSState) :=
  if s.cart.length = 0 then none
  else
    if truthyStr (saleStoreId profile s) then
      match saleStoreId profile s with
      | none => none
      | some st =>
        some (mkSaleRow profile s st, soldSaleItems saleId s.cart,
          { s with
              products := applyOptimisticStock s.cart s.products
              cart := []
              selectedCustomer := none
              paymentMethod := PaymentMethod.cash })
    else none

/-- The query built by `fetchProducts` (part_008 lines 390–413):
`.gt("stock", 0)`, `.order("name")`, plus `.eq("store_id", …)` when the
operator is a receptionist with a truthy store id. -/
structure ProductsQuery where
  stock_gt : Option ℤ
  store_id_eq : Option String
  order_by : Option String
deriving DecidableEq

/-- The query built by `fetchCustomers` (part_008 lines 415–430):
`.order("name")`, plus the same conditional store filter; no stock
filter. -/
structure CustomersQuery where
  store_id_eq : Option String
  order_by : Option String
deriving DecidableEq

/-- Query construction of `fetchProducts` (part_008 lines 393–401). -/
def buildProductsQuery (profile : Option Profile) : ProductsQuery :=
  let base : ProductsQuery :=
    { stock_gt := some 0, store_id_eq := none, order_by := some "name" }
  match profile with
  | some p =>
    if p.role = Role.receptionist ∧ truthyStr p.store_id = true then
      { base with store_id_eq := p.store_id }
    else base
  | none => base

/-- Query construction of `fetchCustomers` (part_008 lines 417–421). -/
def buildCustomersQuery (profile : Option Profile) : CustomersQuery :=
  let base : CustomersQuery :=
    { store_id_eq := none, order_by := some "name" }
  match profile with
  | some p =>
    if p.role = Role.receptionist ∧ truthyStr p.store_id = true then
      { base with store_id_eq := p.store_id }
    else base
  | none => base

/-- Result handling of `fetchProducts` (part_008 lines 403–412): on success
`setProducts(data || [])`; on failure a `toast.error` and the previous list
is kept. -/
def fetchProductsResult (response : Except Unit (Option (List Product)))
    (products : List Product) : List Product × List Toast :=
  match response with
  | Except.ok data => (data.getD [], [])
  | Except.error _ =>
    (products, [Toast.mk ToastKind.error "Failed to load products"])

/-- Result handling of `fetchCustomers` (part_008 lines 423–429): on
success `setCustomers(data || [])`; on failure only `console.error` runs —
no toast is emitted and the previous list is kept. -/
def fetchCustomersResult (response : Except Unit (Option (List Customer)))
    (customers : List Customer) : List Customer × List Toast :=
  match response with
  | Except.ok data => (data.getD [], [])
  | Except.error _ => (customers, [])

/-- Carts reachable from the empty cart by the cart operations of the sale
page: add item, change quantity by ±1 (the UI only ever calls
`updateQuantity` with `1` or `-1`), and remove item. -/
inductive Reachable : List CartItem → Prop where
  | nil : Reachable []
  | addItem (cart : List CartItem) (p : Product) :
      Reachable cart → Reachable (addToCart cart p).1
  | changeQty (cart : List CartItem) (productId : String) (change : ℤ) :
      change = 1 ∨ change = -1 →
      Reachable cart → Reachable (updateQuantity cart productId change).1
  | removeItem (cart : List CartItem) (productId : String) :
      Reachable cart → Reachable (removeFromCart cart productId).1

/-! ### Concrete data used by witnesses and counterexamples -/

/-- The product of the specification's example scenario: ฿100 selling,
฿60 buying, stock 5. -/
def demoProductA : Product :=
  { id := "p1", store_id := "s1", name := "A", sku := none, category := none,
    buying_price := 60, selling_price := 100, stock := 5 }

/-- A second in-stock product, untouched by the demo sale. -/
def demoProductB : Product :=
  { id := "p2", store_id := "s1", name := "B", sku := none, category := none,
    buying_price := 10, selling_price := 15, stock := 7 }

/-- A product whose stock has reached 0 (possible in the page's product
list after an optimistic stock update, since the list is not re-filtered). -/
def demoOutOfStock : Product :=
  { id := "p0", store_id := "s1", name := "Z", sku := none, category := none,
    buying_price := 1, selling_price := 2, stock := 0 }

/-- Cart line: one unit of product A. -/
def demoItemA1 : CartItem := { toProduct := demoProductA, quantity := 1 }

/-- Cart line: two units of product A (the spec's example cart). -/
def demoItemA2 : CartItem := { toProduct := demoProductA, quantity := 2 }

/-- Cart line: five units of product A — exactly at the stock ceiling. -/
def demoItemA5 : CartItem := { toProduct := demoProductA, quantity := 5 }

/-- The spec's example cart: 2 × product A. -/
def demoCart : List CartItem := [demoItemA2]

/-- A customer with a 10% percentage discount. -/
def demoPercentCustomer : Customer :=
  { id := "c1", store_id := "s1", name := "Percy", phone := none,
    customer_type := CustomerType.vip,
    discount_type := DiscountType.percentage,
    discount_percentage := 10, discount_fixed_amount := 50 }

/-- A customer with a ฿250 fixed discount (the spec's example). -/
def demoFixedCustomer : Customer :=
  { id := "c2", store_id := "s1", name := "Fiona", phone := none,
    customer_type := CustomerType.wholesale,
    discount_type := DiscountType.fixed,
    discount_percentage := 20, discount_fixed_amount := 250 }

/-- A customer with a percentage discount above 100 — nothing in the sale
page clamps this value. -/
def demoOverCustomer : Customer :=
  { id := "c3", store_id := "s1", name := "Otto", phone := none,
    customer_type := CustomerType.vip,
    discount_type := DiscountType.percentage,
    discount_percentage := 150, discount_fixed_amount := 0 }

/-- A receptionist operator assigned to store `"s1"`. -/
def demoProfile : Profile :=
  { id := "u1", role := Role.receptionist, store_id := some "s1" }

/-- A page state ready for submission: two products loaded, 2 × A in the
cart, no customer. -/
def demoState : POSState :=
  { products := [demoProductA, demoProductB], customers := [],
    cart := [demoItemA2], selectedCustomer := none,
    paymentMethod := PaymentMethod.cash }

/-- The sale row the demo submission inserts. -/
def demoSale : SaleRow :=
  { store_id := "s1", total_amount := 200, profit := 80,
    payment_method := PaymentMethod.cash, sold_by := some "u1",
    customer_id := none, discount_amount := 0, original_amount := 200 }

/-- The sale-item rows the demo submission inserts. -/
def demoSaleItems : List SaleItemRow :=
  [{ sale_id := "sale-1", product_id := "p1", quantity := 2,
     price_at_sale := 100, cost_at_sale := 60, subtotal := 200,
     profit := 80 }]

/-- The page state after the demo submission: stock of A decremented by 2,
product B untouched, cart and customer cleared. -/
def demoFinalState : POSState :=
  { products := [{ demoProductA with stock := 3 }, demoProductB],
    customers := [], cart := [], selectedCustomer := none,
    paymentMethod := PaymentMethod.cash }

/-! ### Helper lemmas -/

/-- Folding `+ f x` over a list starting from `a` yields `a` plus the sum
of the mapped list. -/
theorem foldl_add_map_sum (f : CartItem → ℚ) (l : List CartItem) :
    ∀ a : ℚ, l.foldl (fun s x => s + f x) a = a + (l.map f).sum := by
  induction l with
  | nil => intro a; simp
  | cons x l ih =>
    intro a
    simp only [List.foldl_cons, List.map_cons, List.sum_cons, ih (a + f x)]
    ring

/-- `calculateSubtotal` is the sum over cart items of selling price times
quantity. -/
theorem calculateSubtotal_eq_sum (cart : List CartItem) :
    calculateSubtotal cart =
      (cart.map (fun item => item.selling_price * (item.quantity : ℚ))).sum := by
  simpa [calculateSubtotal] using
    foldl_add_map_sum (fun item => item.selling_price * (item.quantity : ℚ)) cart 0

/-- The margin fold inside `calculateProfit` is the sum of per-line
margins. -/
theorem profitFold_eq_sum (cart : List CartItem) :
    cart.foldl (fun sum item =>
        sum + (item.selling_price - item.buying_price) * (item.quantity : ℚ)) 0 =
      (cart.map (fun item =>
        (item.selling_price - item.buying_price) * (item.quantity : ℚ))).sum := by
  simpa using
    foldl_add_map_sum
      (fun item => (item.selling_price - item.buying_price) * (item.quantity : ℚ)) cart 0

/-- Equation lemma: `addToCart` when the product is not yet in the cart. -/
theorem addToCart_of_find_none (cart : List CartItem) (p : Product)
    (h : cart.find? (fun item => item.id == p.id) = none) :
    addToCart cart p =
      (cart ++ [{ toProduct := p, quantity := 1 }], [addedToCartToast p]) := by
  simp [addToCart, h]

/-- Equation lemma: `addToCart` when the product is in the cart at the
stock ceiling. -/
theorem addToCart_of_find_reject (cart : List CartItem) (p : Product)
    (existing : CartItem)
    (h : cart.find? (fun item => item.id == p.id) = some existing)
    (hq : existing.quantity ≥ p.stock) :
    addToCart cart p =
      (cart, [insufficientStockToast p.stock, addedToCartToast p]) := by
  simp [addToCart, h, hq]

/-- Equation lemma: `addToCart` when the product is in the cart strictly
below the stock ceiling. -/
theorem addToCart_of_find_increment (cart : List CartItem) (p : Product)
    (existing : CartItem)
    (h : cart.find? (fun item => item.id == p.id) = some existing)
    (hq : existing.quantity < p.stock) :
    addToCart cart p =
      (cart.map (fun item =>
        if item.id == p.id then { item with quantity := item.quantity + 1 }
        else item), [addedToCartToast p]) := by
  simp [addToCart, h, not_le.2 hq]

/-- Equation lemma: `updateQuantityItem` on a non-matching item. -/
theorem updateQuantityItem_other (pid : String) (change : ℤ) (item : CartItem)
    (h : ¬ item.id = pid) :
    updateQuantityItem pid change item = (some item, []) := by
  simp [updateQuantityItem, h]

/-- Equation lemma: `updateQuantityItem` removing the line. -/
theorem updateQuantityItem_remove (pid : String) (change : ℤ) (item : CartItem)
    (h : item.id = pid) (hq : item.quantity + change ≤ 0) :
    updateQuantityItem pid change item = (none, []) := by
  simp [updateQuantityItem, h, hq]

/-- Equation lemma: `updateQuantityItem` rejecting an over-stock change. -/
theorem updateQuantityItem_reject (pid : String) (change : ℤ) (item : CartItem)
    (h : item.id = pid) (h0 : 0 < item.quantity + change)
    (hs : item.stock < item.quantity + change) :
    updateQuantityItem pid change item =
      (some item, [insufficientStockToast item.stock]) := by
  simp [updateQuantityItem, h, not_le.2 h0, hs]

/-- Equation lemma: `updateQuantityItem` setting the new quantity. -/
theorem updateQuantityItem_set (pid : String) (change : ℤ) (item : CartItem)
    (h : item.id = pid) (h0 : 0 < item.quantity + change)
    (hs : item.quantity + change ≤ item.stock) :
    updateQuantityItem pid change item =
      (some { item with quantity := item.quantity + change }, []) := by
  simp [updateQuantityItem, h, not_le.2 h0, not_lt.2 hs]

/-- Case analysis on a surviving item of `updateQuantityItem`. -/
theorem updateQuantityItem_fst_cases (pid : String) (change : ℤ)
    (a x : CartItem) (h : (updateQuantityItem pid change a).1 = some x) :
    x = a ∨
      (x = { a with quantity := a.quantity + change } ∧
        0 < a.quantity + change ∧ a.quantity + change ≤ a.stock) := by
  by_cases h1 : a.id = pid
  · by_cases h2 : a.quantity + change ≤ 0
    · rw [updateQuantityItem_remove pid change a h1 h2] at h
      simp at h
    · by_cases h3 : a.stock < a.quantity + change
      · rw [updateQuantityItem_reject pid change a h1 (by omega) h3] at h
        simp at h
        exact Or.inl h.symm
      · rw [updateQuantityItem_set pid change a h1 (by omega) (by omega)] at h
        simp at h
        exact Or.inr ⟨h.symm, by omega, by omega⟩
  · rw [updateQuantityItem_other pid change a h1] at h
    simp at h
    exact Or.inl h.symm

/-- A surviving item of `updateQuantityItem` keeps its product id. -/
theorem updateQuantityItem_fst_id (pid : String) (change : ℤ)
    (a x : CartItem) (h : (updateQuantityItem pid change a).1 = some x) :
    x.id = a.id := by
  rcases updateQuantityItem_fst_cases pid change a x h with rfl | ⟨rfl, -, -⟩ <;> rfl

/-- Membership in the cart component of `updateQuantity`. -/
theorem mem_updateQuantity_fst (cart : List CartItem) (pid : String)
    (change : ℤ) (x : CartItem) :
    x ∈ (updateQuantity cart pid change).1 ↔
      ∃ a ∈ cart, (updateQuantityItem pid change a).1 = some x := by
  simp [updateQuantity, List.mem_filterMap]

/-- Membership in the toast component of `updateQuantity`. -/
theorem mem_updateQuantity_snd (cart : List CartItem) (pid : String)
    (change : ℤ) (t : Toast) :
    t ∈ (updateQuantity cart pid change).2 ↔
      ∃ a ∈ cart, t ∈ (updateQuantityItem pid change a).2 := by
  simp [updateQuantity, List.mem_flatten]

/-- Mapping ids after `filterMap` by an id-preserving partial function is a
sublist of the original ids. -/
theorem filterMap_ids_sublist (g : CartItem → Option CartItem)
    (hg : ∀ a b, g a = some b → b.id = a.id) (l : List CartItem) :
    List.Sublist ((l.filterMap g).map (fun i => i.id))
      (l.map (fun i => i.id)) := by
  induction l with
  | nil => simp
  | cons a l ih =>
    cases hga : g a with
    | none =>
      simp only [List.filterMap_cons, hga, List.map_cons]
      exact ih.cons a.id
    | some b =>
      simp only [List.filterMap_cons, hga, List.map_cons, hg a b hga]
      exact ih.cons₂ a.id

/-- Mapping an id-preserving function over a cart keeps the id list. -/
theorem map_ids_of_preserve (f : CartItem → CartItem)
    (hf : ∀ x, (f x).id = x.id) (l : List CartItem) :
    (l.map f).map (fun i => i.id) = l.map (fun i => i.id) := by
  induction l with
  | nil => rfl
  | cons a l ih => simp [hf, ih]

/-- Reachable carts never hold two lines for the same product id. -/
theorem reachable_ids_nodup {cart : List CartItem} (h : Reachable cart) :
    (cart.map (fun item => item.id)).Nodup := by
  induction h with
  | nil => simp
  | addItem cart p hr ih =>
    cases hf : cart.find? (fun item => item.id == p.id) with
    | some existing =>
      by_cases hq : existing.quantity ≥ p.stock
      · rw [addToCart_of_find_reject cart p existing hf hq]
        exact ih
      · rw [addToCart_of_find_increment cart p existing hf (not_le.1 hq)]
        have hids := map_ids_of_preserve
          (fun item => if item.id == p.id then
            { item with quantity := item.quantity + 1 } else item)
          (fun x => by by_cases hx : (x.id == p.id) = true <;> simp [hx]) cart
        have hgoal : ((cart.map (fun item => if item.id == p.id then
            { item with quantity := item.quantity + 1 } else item)).map
              (fun item => item.id)).Nodup := by
          rw [hids]
          exact ih
        exact hgoal
    | none =>
      rw [addToCart_of_find_none cart p hf]
      have hnotmem : p.id ∉ cart.map (fun item => item.id) := by
        intro hmem
        obtain ⟨b, hb, hbid⟩ := List.mem_map.1 hmem
        have hnb := List.find?_eq_none.1 hf b hb
        exact hnb (by simp [hbid])
      simp only [List.map_append, List.map_cons, List.map_nil]
      exact List.nodup_append.2 ⟨ih, by simp, by
        intro a hamem hsing
        simp only [List.mem_singleton] at hsing
        subst hsing
        exact hnotmem hamem⟩
  | changeQty cart pid change hch hr ih =>
    have hsub := filterMap_ids_sublist
      (fun item => (updateQuantityItem pid change item).1)
      (fun a b hab => updateQuantityItem_fst_id pid change a b hab) cart
    exact ih.sublist hsub
  | removeItem cart pid hr ih =>
    exact ih.sublist ((List.filter_sublist cart).map (fun i => i.id))

/-- Every line of a reachable cart has quantity at least 1. -/
theorem reachable_one_le_quantity {cart : List CartItem} (h : Reachable cart) :
    ∀ item ∈ cart, 1 ≤ item.quantity := by
  induction h with
  | nil => simp
  | addItem cart p hr ih =>
    cases hf : cart.find? (fun item => item.id == p.id) with
    | some existing =>
      by_cases hq : existing.quantity ≥ p.stock
      · rw [addToCart_of_find_reject cart p existing hf hq]
        exact ih
      · rw [addToCart_of_find_increment cart p existing hf (not_le.1 hq)]
        intro x hx
        obtain ⟨a, ha, rfl⟩ := List.mem_map.1 hx
        by_cases hid : (a.id == p.id) = true
        · have := ih a ha
          simp only [hid, if_true]
          omega
        · simp only [hid, if_false]
          exact ih a ha
    | none =>
      rw [addToCart_of_find_none cart p hf]
      intro x hx
      rcases List.mem_append.1 hx with hmem | hmem
      · exact ih x hmem
      · simp only [List.mem_singleton] at hmem
        subst hmem
        exact le_refl 1
  | changeQty cart pid change hch hr ih =>
    intro x hx
    obtain ⟨a, ha, hg⟩ := (mem_updateQuantity_fst cart pid change x).1 hx
    rcases updateQuantityItem_fst_cases pid change a x hg with h1 | ⟨h1, h0, -⟩
    · subst h1
      exact ih _ ha
    · subst h1
      show (1 : ℤ) ≤ a.quantity + change
      omega
  | removeItem cart pid hr ih =>
    intro x hx
    have hmem : x ∈ cart ∧ ¬ x.id = pid := by simpa [removeFromCart] using hx
    exact ih x hmem.1

/-! ### Claims -/

/-- C1: for every cart and optionally selected customer, the computed
discount is 0 when no customer is selected; subtotal × (P / 100) when the
selected customer's discount mode is percentage with percentage P; and
min(F, subtotal) when the mode is fixed with fixed amount F, where the
subtotal is the sum over cart items of selling price × quantity. -/
theorem calculateDiscount_spec (cart : List CartItem) (c : Customer) :
    calculateDiscount none cart = 0 ∧
    (c.discount_type = DiscountType.percentage →
      calculateDiscount (some c) cart =
        (cart.map (fun item => item.selling_price * (item.quantity : ℚ))).sum
          * c.discount_percentage / 100) ∧
    (c.discount_type = DiscountType.fixed →
      calculateDiscount (some c) cart =
        min c.discount_fixed_amount
          (cart.map (fun item => item.selling_price * (item.quantity : ℚ))).sum) := by
  refine ⟨rfl, ?_, ?_⟩ <;> intro h <;>
    simp [calculateDiscount, h, calculateSubtotal_eq_sum]

/-- Witness for `calculateDiscount_spec`: a 10% customer and a ฿250 fixed
customer on the 2 × ฿100 cart. -/
theorem calculateDiscount_spec_witness :
    (demoPercentCustomer.discount_type = DiscountType.percentage ∧
      calculateDiscount (some demoPercentCustomer) demoCart =
        (demoCart.map (fun item => item.selling_price * (item.quantity : ℚ))).sum
          * demoPercentCustomer.discount_percentage / 100) ∧
    (demoFixedCustomer.discount_type = DiscountType.fixed ∧
      calculateDiscount (some demoFixedCustomer) demoCart =
        min demoFixedCustomer.discount_fixed_amount
          (demoCart.map (fun item =>
            item.selling_price * (item.quantity : ℚ))).sum) :=
  ⟨⟨rfl, (calculateDiscount_spec demoCart demoPercentCustomer).2.1 rfl⟩,
   ⟨rfl, (calculateDiscount_spec demoCart demoFixedCustomer).2.2 rfl⟩⟩

/-- C2 counterexample: the claim asserts `discount ≤ subtotal` for all
customer discount magnitudes, "including percentage values"; but for a
percentage customer with percentage 150 and the 2 × ฿100 cart, the
computed discount (300) exceeds the subtotal (200) and the computed total
is negative.  Nothing in `calculateDiscount` clamps the percentage. -/
theorem calculateTotal_nonneg_cex :
    demoOverCustomer.discount_type = DiscountType.percentage ∧
    demoOverCustomer.discount_percentage = 150 ∧
    calculateSubtotal demoCart < calculateDiscount (some demoOverCustomer) demoCart ∧
    calculateTotal (some demoOverCustomer) demoCart < 0 := by
  refine ⟨rfl, rfl, ?_, ?_⟩ <;>
    norm_num [calculateTotal, calculateDiscount, calculateSubtotal, demoCart,
      demoItemA2, demoProductA, demoOverCustomer]

/-- C2 (amended): the computed total always equals subtotal minus
discount; and the discount is at most the subtotal — hence the total is
nonnegative — provided the subtotal is nonnegative and any selected
percentage-mode customer has percentage ≤ 100 (the code does not clamp
percentage discounts, so larger percentages violate the bound, see
`calculateTotal_nonneg_cex`; fixed-mode discounts are clamped by `min` and
need no proviso). -/
theorem calculateTotal_spec (sc : Option Customer) (cart : List CartItem)
    (hsub : 0 ≤ calculateSubtotal cart)
    (hperc : ∀ c, sc = some c → c.discount_type = DiscountType.percentage →
      c.discount_percentage ≤ 100) :
    calculateTotal sc cart = calculateSubtotal cart - calculateDiscount sc cart ∧
    calculateDiscount sc cart ≤ calculateSubtotal cart ∧
    0 ≤ calculateTotal sc cart := by
  have hd : calculateDiscount sc cart ≤ calculateSubtotal cart := by
    cases sc with
    | none => simpa [calculateDiscount] using hsub
    | some c =>
      cases hdt : c.discount_type with
      | fixed =>
        simp only [calculateDiscount, hdt]
        exact min_le_right _ _
      | percentage =>
        have hp := hperc c rfl hdt
        simp only [calculateDiscount, hdt]
        rw [div_le_iff₀ (show (0 : ℚ) < 100 by norm_num)]
        exact mul_le_mul_of_nonneg_left hp hsub
  refine ⟨rfl, hd, ?_⟩
  have : 0 ≤ calculateSubtotal cart - calculateDiscount sc cart :=
    sub_nonneg.2 hd
  simpa [calculateTotal] using this

/-- Witness for `calculateTotal_spec`: the 10% customer on the 2 × ฿100
cart. -/
theorem calculateTotal_spec_witness :
    calculateTotal (some demoPercentCustomer) demoCart =
      calculateSubtotal demoCart -
        calculateDiscount (some demoPercentCustomer) demoCart ∧
    calculateDiscount (some demoPercentCustomer) demoCart ≤
      calculateSubtotal demoCart ∧
    0 ≤ calculateTotal (some demoPercentCustomer) demoCart :=
  calculateTotal_spec (some demoPercentCustomer) demoCart
    (by norm_num [calculateSubtotal, demoCart, demoItemA2, demoProductA])
    (by
      intro c hc hdt
      cases hc
      norm_num [demoPercentCustomer])

/-- C3: for every cart and optionally selected customer, the computed
profit equals the sum over cart items of (selling − buying) × quantity,
minus the discount; and on the example cart (2 units at ฿100 selling /
฿60 buying) with a ฿250 fixed-discount customer, the discount is
min(250, 200) = 200, the total is 0 and the profit is −120. -/
theorem calculateProfit_spec :
    (∀ (sc : Option Customer) (cart : List CartItem),
      calculateProfit sc cart =
        (cart.map (fun item =>
          (item.selling_price - item.buying_price) * (item.quantity : ℚ))).sum
          - calculateDiscount sc cart) ∧
    calculateDiscount (some demoFixedCustomer) demoCart = 200 ∧
    calculateTotal (some demoFixedCustomer) demoCart = 0 ∧
    calculateProfit (some demoFixedCustomer) demoCart = -120 := by
  refine ⟨?_, ?_, ?_, ?_⟩
  · intro sc cart
    simp only [calculateProfit, profitFold_eq_sum]
  · norm_num [calculateDiscount, calculateSubtotal, min_def, demoCart,
      demoItemA2, demoProductA, demoFixedCustomer]
  · norm_num [calculateTotal, calculateDiscount, calculateSubtotal, min_def,
      demoCart, demoItemA2, demoProductA, demoFixedCustomer]
  · norm_num [calculateProfit, calculateDiscount, calculateSubtotal, min_def,
      demoCart, demoItemA2, demoProductA, demoFixedCustomer]

/-- C6: `addToCart` inserts the product with quantity 1 when no cart line
carries its id; when a line for it exists with quantity strictly below the
product's stock, it increments that line's quantity by 1; and when a line
exists with quantity at or above the product's stock, it emits the
insufficient-stock notification and returns the cart unchanged. -/
theorem addToCart_spec (cart : List CartItem) (product : Product) :
    ((∀ item ∈ cart, item.id ≠ product.id) →
      (addToCart cart product).1 =
        cart ++ [{ toProduct := product, quantity := 1 }]) ∧
    (∀ existing,
      cart.find? (fun item => item.id == product.id) = some existing →
      existing.quantity < product.stock →
      (addToCart cart product).1 = cart.map (fun item =>
        if item.id == product.id then
          { item with quantity := item.quantity + 1 }
        else item)) ∧
    (∀ existing,
      cart.find? (fun item => item.id == product.id) = some existing →
      product.stock ≤ existing.quantity →
      (addToCart cart product).1 = cart ∧
      insufficientStockToast product.stock ∈ (addToCart cart product).2) := by
  refine ⟨?_, ?_, ?_⟩
  · intro hno
    have hf : cart.find? (fun item => item.id == product.id) = none :=
      List.find?_eq_none.2 (fun x hx => by simpa using hno x hx)
    rw [addToCart_of_find_none cart product hf]
  · intro existing hf hlt
    rw [addToCart_of_find_increment cart product existing hf hlt]
  · intro existing hf hge
    rw [addToCart_of_find_reject cart product existing hf hge]
    exact ⟨rfl, by simp⟩

/-- Witness for `addToCart_spec`: a fresh insert into the empty cart, and
a rejected add when the cart already holds all 5 units of stock. -/
theorem addToCart_spec_witness :
    (addToCart [] demoProductA).1 =
      [] ++ [{ toProduct := demoProductA, quantity := 1 }] ∧
    ((addToCart [demoItemA5] demoProductA).1 = [demoItemA5] ∧
      insufficientStockToast demoProductA.stock ∈
        (addToCart [demoItemA5] demoProductA).2) :=
  ⟨(addToCart_spec [] demoProductA).1 (by simp),
   (addToCart_spec [demoItemA5] demoProductA).2.2 demoItemA5
     (by decide) (by decide)⟩

/-- C7: `updateQuantity` (read as the code's ordered cases) leaves lines
for other products untouched; removes every matching line whose resulting
quantity would drop to 0 or below; keeps a matching line unchanged and
emits the insufficient-stock notification when the (positive) resulting
quantity would exceed that line's stock; and otherwise sets the matching
line to the new quantity. -/
theorem updateQuantity_spec (cart : List CartItem) (pid : String)
    (change : ℤ) (hchange : change = 1 ∨ change = -1) :
    (∀ item ∈ cart, item.id ≠ pid →
      item ∈ (updateQuantity cart pid change).1) ∧
    ((∀ item ∈ cart, item.id = pid → item.quantity + change ≤ 0) →
      ∀ x ∈ (updateQuantity cart pid change).1, x.id ≠ pid) ∧
    (∀ item ∈ cart, item.id = pid → 0 < item.quantity + change →
      item.stock < item.quantity + change →
      item ∈ (updateQuantity cart pid change).1 ∧
      insufficientStockToast item.stock ∈
        (updateQuantity cart pid change).2) ∧
    (∀ item ∈ cart, item.id = pid → 0 < item.quantity + change →
      item.quantity + change ≤ item.stock →
      { item with quantity := item.quantity + change } ∈
        (updateQuantity cart pid change).1) := by
  refine ⟨?_, ?_, ?_, ?_⟩
  · intro item hmem hne
    exact (mem_updateQuantity_fst cart pid change item).2
      ⟨item, hmem, by rw [updateQuantityItem_other pid change item hne]⟩
  · intro hall x hx
    obtain ⟨a, ha, hg⟩ := (mem_updateQuantity_fst cart pid change x).1 hx
    by_cases hid : a.id = pid
    · exfalso
      rw [updateQuantityItem_remove pid change a hid (hall a ha hid)] at hg
      simp at hg
    · rcases updateQuantityItem_fst_cases pid change a x hg with h1 | ⟨h1, -, -⟩
      · subst h1
        exact hid
      · subst h1
        exact fun hcontra => hid (by simpa using hcontra)
  · intro item hmem hid h0 hst
    have heq := updateQuantityItem_reject pid change item hid h0 hst
    constructor
    · exact (mem_updateQuantity_fst cart pid change item).2
        ⟨item, hmem, by rw [heq]⟩
    · exact (mem_updateQuantity_snd cart pid change
        (insufficientStockToast item.stock)).2
        ⟨item, hmem, by rw [heq]; simp⟩
  · intro item hmem hid h0 hs
    exact (mem_updateQuantity_fst cart pid change
      { item with quantity := item.quantity + change }).2
      ⟨item, hmem, by rw [updateQuantityItem_set pid change item hid h0 hs]⟩

/-- Witness for `updateQuantity_spec`: a decrement of the 2-unit line to 1
unit, and a rejected increment of the at-ceiling 5-unit line. -/
theorem updateQuantity_spec_witness :
    { demoItemA2 with quantity := demoItemA2.quantity + (-1) } ∈
      (updateQuantity [demoItemA2] "p1" (-1)).1 ∧
    (demoItemA5 ∈ (updateQuantity [demoItemA5] "p1" 1).1 ∧
      insufficientStockToast demoItemA5.stock ∈
        (updateQuantity [demoItemA5] "p1" 1).2) :=
  ⟨(updateQuantity_spec [demoItemA2] "p1" (-1) (Or.inr rfl)).2.2.2
      demoItemA2 (by decide) (by decide) (by decide) (by decide),
   (updateQuantity_spec [demoItemA5] "p1" 1 (Or.inl rfl)).2.2.1
      demoItemA5 (by decide) (by decide) (by decide) (by decide)⟩

/-- C4 counterexample: the fresh-insert path of `addToCart` performs no
stock check, so adding a stock-0 product (such products can sit in the
page's product list after an optimistic stock update, which never
re-filters the list) reaches a cart whose single line has quantity 1
exceeding the stock supplied at add time (0). -/
theorem cart_stock_invariant_cex :
    Reachable [{ toProduct := demoOutOfStock, quantity := 1 }] ∧
    ({ toProduct := demoOutOfStock, quantity := 1 } : CartItem) ∈
      ([{ toProduct := demoOutOfStock, quantity := 1 }] : List CartItem) ∧
    ¬ (({ toProduct := demoOutOfStock, quantity := 1 } : CartItem).quantity ≤
        ({ toProduct := demoOutOfStock, quantity := 1 } : CartItem).stock) := by
  refine ⟨?_, by decide, by decide⟩
  have h := Reachable.addItem [] demoOutOfStock Reachable.nil
  rwa [show (addToCart [] demoOutOfStock).1 =
    [{ toProduct := demoOutOfStock, quantity := 1 }] from by decide] at h

/-- C4 (amended): every line of a reachable cart has quantity at least 1;
an add of a positive-stock product to a reachable cart leaves every line
either exactly as it was in the cart or with quantity bounded by the stock
supplied to that add; and a quantity change leaves every line either as it
was or with quantity bounded by that line's recorded stock.  The proviso
`1 ≤ p.stock` on the add clause is forced by
`cart_stock_invariant_cex`: the fresh-insert path checks no stock. -/
theorem cart_quantity_invariant :
    (∀ cart, Reachable cart → ∀ item ∈ cart, 1 ≤ item.quantity) ∧
    (∀ (cart : List CartItem) (p : Product), Reachable cart → 1 ≤ p.stock →
      ∀ x ∈ (addToCart cart p).1, x ∈ cart ∨ x.quantity ≤ p.stock) ∧
    (∀ (cart : List CartItem) (pid : String) (change : ℤ),
      ∀ x ∈ (updateQuantity cart pid change).1,
        x ∈ cart ∨ x.quantity ≤ x.stock) := by
  refine ⟨fun cart h => reachable_one_le_quantity h, ?_, ?_⟩
  · intro cart p hr hs x hx
    cases hf : cart.find? (fun item => item.id == p.id) with
    | none =>
      rw [addToCart_of_find_none cart p hf] at hx
      rcases List.mem_append.1 hx with hmem | hmem
      · exact Or.inl hmem
      · simp only [List.mem_singleton] at hmem
        subst hmem
        exact Or.inr hs
    | some existing =>
      by_cases hq : existing.quantity ≥ p.stock
      · rw [addToCart_of_find_reject cart p existing hf hq] at hx
        exact Or.inl hx
      · rw [addToCart_of_find_increment cart p existing hf (not_le.1 hq)] at hx
        obtain ⟨a, ha, rfl⟩ := List.mem_map.1 hx
        by_cases hid : (a.id == p.id) = true
        · right
          have hexid : existing.id = p.id := by
            simpa using List.find?_some hf
          have hexmem : existing ∈ cart := List.mem_of_find?_eq_some hf
          have haid : a.id = p.id := beq_iff_eq.1 hid
          have hae : a = existing :=
            List.inj_on_of_nodup_map (reachable_ids_nodup hr) ha hexmem
              (by rw [haid, hexid])
          simp only [hid, if_true]
          subst hae
          have hlt := not_le.1 hq
          omega
        · left
          simp only [hid, if_false]
          exact ha
  · intro cart pid change x hx
    obtain ⟨a, ha, hg⟩ := (mem_updateQuantity_fst cart pid change x).1 hx
    rcases updateQuantityItem_fst_cases pid change a x hg with h1 | ⟨h1, -, hs⟩
    · subst h1
      exact Or.inl ha
    · subst h1
      right
      simpa using hs

/-- Witness for `cart_quantity_invariant`: the one-line cart obtained by
adding product A (stock 5) to the empty cart. -/
theorem cart_quantity_invariant_witness :
    1 ≤ demoItemA1.quantity ∧
    (demoItemA1 ∈ ([] : List CartItem) ∨
      demoItemA1.quantity ≤ demoProductA.stock) := by
  have hreach : Reachable [demoItemA1] := by
    have h := Reachable.addItem [] demoProductA Reachable.nil
    rwa [show (addToCart [] demoProductA).1 = [demoItemA1] from by decide] at h
  constructor
  · exact cart_quantity_invariant.1 [demoItemA1] hreach demoItemA1 (by decide)
  · exact cart_quantity_invariant.2.1 [] demoProductA Reachable.nil (by decide)
      demoItemA1 (by decide)

/-- C10: the product ids of the lines of any reachable cart are pairwise
distinct — each product occupies at most one cart line. -/
theorem cart_ids_distinct (cart : List CartItem) (h : Reachable cart) :
    (cart.map (fun item => item.id)).Nodup :=
  reachable_ids_nodup h

/-- Witness for `cart_ids_distinct`: the cart built by adding products A
then B to the empty cart. -/
theorem cart_ids_distinct_witness :
    (((addToCart (addToCart [] demoProductA).1 demoProductB).1).map
      (fun item => item.id)).Nodup :=
  cart_ids_distinct _ (Reachable.addItem _ demoProductB
    (Reachable.addItem [] demoProductA Reachable.nil))

/-- Characterization of a successful `handleCompleteSale`. -/
theorem handleCompleteSale_success (profile : Option Profile)
    (saleId : String) (s : POSState) (sale : SaleRow)
    (items : List SaleItemRow) (t : POSState)
    (h : handleCompleteSale profile saleId s = some (sale, items, t)) :
    ∃ st, saleStoreId profile s = some st ∧
      sale = mkSaleRow profile s st ∧
      items = soldSaleItems saleId s.cart ∧
      t = { s with
              products := applyOptimisticStock s.cart s.products
              cart := []
              selectedCustomer := none
              paymentMethod := PaymentMethod.cash } := by
  unfold handleCompleteSale at h
  by_cases h1 : s.cart.length = 0
  · rw [if_pos h1] at h
    cases h
  · rw [if_neg h1] at h
    by_cases h2 : truthyStr (saleStoreId profile s) = true
    · rw [if_pos h2] at h
      cases hst : saleStoreId profile s with
      | none =>
        rw [hst] at h
        cases h
      | some st =>
        rw [hst] at h
        simp only [Option.some.injEq, Prod.mk.injEq] at h
        obtain ⟨hs1, hs2, hs3⟩ := h
        exact ⟨st, rfl, hs1.symm, hs2.symm, hs3.symm⟩
    · rw [if_neg h2] at h
      cases h

/-- The demo submission (2 × product A, no customer, receptionist of
store s1) succeeds with the expected sale row, sale items and state. -/
theorem demo_handleCompleteSale_eq :
    handleCompleteSale (some demoProfile) "sale-1" demoState =
      some (demoSale, demoSaleItems, demoFinalState) := by
  norm_num [handleCompleteSale, saleStoreId, saleCustomerId, mkSaleRow,
    soldSaleItems, applyOptimisticStock, demoState, demoProfile,
    calculateSubtotal, calculateDiscount, calculateTotal, calculateProfit,
    demoItemA2, demoProductA, demoProductB, truthyStr, demoSale,
    demoSaleItems, demoFinalState]
  exact ⟨by decide, by decide⟩

/-- C5: after a successful sale submission, the in-memory product list is
the pre-sale list with each sold product's stock decremented by the
quantity sold (looked up by product id in the cart), every product without
a cart line is kept exactly as it was, and the cart and customer selection
are cleared. -/
theorem handleCompleteSale_frame (profile : Option Profile)
    (saleId : String) (s : POSState) (sale : SaleRow)
    (items : List SaleItemRow) (t : POSState)
    (h : handleCompleteSale profile saleId s = some (sale, items, t)) :
    t.cart = [] ∧ t.selectedCustomer = none ∧
    t.products = s.products.map (fun product =>
      match s.cart.find? (fun item => item.id == product.id) with
      | some soldItem =>
        { product with stock := product.stock - soldItem.quantity }
      | none => product) ∧
    (∀ p ∈ s.products,
      s.cart.find? (fun item => item.id == p.id) = none → p ∈ t.products) ∧
    (∀ p ∈ s.products, ∀ soldItem,
      s.cart.find? (fun item => item.id == p.id) = some soldItem →
      { p with stock := p.stock - soldItem.quantity } ∈ t.products) := by
  obtain ⟨st, -, -, -, ht⟩ :=
    handleCompleteSale_success profile saleId s sale items t h
  subst ht
  refine ⟨rfl, rfl, rfl, ?_, ?_⟩
  · intro p hp hf
    show p ∈ applyOptimisticStock s.cart s.products
    exact List.mem_map.2 ⟨p, hp, by simp [hf]⟩
  · intro p hp soldItem hf
    show { p with stock := p.stock - soldItem.quantity } ∈
      applyOptimisticStock s.cart s.products
    exact List.mem_map.2 ⟨p, hp, by simp [hf]⟩

/-- Witness for `handleCompleteSale_frame`: the demo submission of
2 × product A by the receptionist of store s1. -/
theorem handleCompleteSale_frame_witness :
    demoFinalState.cart = [] ∧
    demoFinalState.selectedCustomer = none ∧
    { demoProductA with stock := demoProductA.stock - demoItemA2.quantity } ∈
      demoFinalState.products ∧
    demoProductB ∈ demoFinalState.products := by
  have h := demo_handleCompleteSale_eq
  have hf := handleCompleteSale_frame (some demoProfile) "sale-1" demoState
    demoSale demoSaleItems demoFinalState h
  exact ⟨hf.1, hf.2.1,
    hf.2.2.2.2 demoProductA (by decide) demoItemA2 (by decide),
    hf.2.2.2.1 demoProductB (by decide) (by decide)⟩

/-- C8: a successful submission builds exactly one sale-item row per
distinct cart line, each referencing the generated sale id and carrying
price, cost, line subtotal and line profit captured from the cart; and
the sale row satisfies original_amount = sum of line subtotals,
total_amount = original_amount − discount_amount, and profit = sum of
line profits − discount_amount. -/
theorem saleItems_spec (profile : Option Profile) (saleId : String)
    (s : POSState) (sale : SaleRow) (items : List SaleItemRow) (t : POSState)
    (h : handleCompleteSale profile saleId s = some (sale, items, t)) :
    items = s.cart.map (fun item =>
      { sale_id := saleId
        product_id := item.id
        quantity := item.quantity
        price_at_sale := item.selling_price
        cost_at_sale := item.buying_price
        subtotal := item.selling_price * (item.quantity : ℚ)
        profit := (item.selling_price - item.buying_price)
          * (item.quantity : ℚ) }) ∧
    items.length = s.cart.length ∧
    (∀ r ∈ items, r.sale_id = saleId) ∧
    sale.original_amount = (items.map (fun r => r.subtotal)).sum ∧
    sale.total_amount = sale.original_amount - sale.discount_amount ∧
    sale.profit = (items.map (fun r => r.profit)).sum - sale.discount_amount := by
  obtain ⟨st, -, hsale, hitems, -⟩ :=
    handleCompleteSale_success profile saleId s sale items t h
  subst hsale
  subst hitems
  refine ⟨rfl, by simp [soldSaleItems], ?_, ?_, rfl, ?_⟩
  · intro r hr
    obtain ⟨a, ha, hra⟩ := List.mem_map.1 (by simpa [soldSaleItems] using hr)
    rw [← hra]
  · show calculateSubtotal s.cart = _
    rw [calculateSubtotal_eq_sum]
    simp [soldSaleItems, List.map_map, Function.comp_def]
  · show calculateProfit s.selectedCustomer s.cart = _
    simp only [calculateProfit, profitFold_eq_sum]
    simp [soldSaleItems, List.map_map, Function.comp_def, mkSaleRow]

/-- Witness for `saleItems_spec`: the demo submission. -/
theorem saleItems_spec_witness :
    (∀ r ∈ demoSaleItems, r.sale_id = "sale-1") ∧
    demoSale.original_amount =
      (demoSaleItems.map (fun r => r.subtotal)).sum ∧
    demoSale.total_amount =
      demoSale.original_amount - demoSale.discount_amount ∧
    demoSale.profit =
      (demoSaleItems.map (fun r => r.profit)).sum -
        demoSale.discount_amount := by
  have hs := saleItems_spec (some demoProfile) "sale-1" demoState demoSale
    demoSaleItems demoFinalState demo_handleCompleteSale_eq
  exact ⟨hs.2.2.1, hs.2.2.2.1, hs.2.2.2.2.1, hs.2.2.2.2.2⟩

/-- C9 counterexample: the claim asserts that a fetch failure surfaces a
user-visible notification; but a failed customers fetch runs only
`console.error` — the emitted toast list is empty (the prior list is
indeed kept). -/
theorem catalog_loader_cex :
    (fetchCustomersResult (Except.error ()) [demoPercentCustomer]).1 =
      [demoPercentCustomer] ∧
    (fetchCustomersResult (Except.error ()) [demoPercentCustomer]).2 = [] :=
  ⟨rfl, rfl⟩

/-- C9 (amended): the products query always filters to stock > 0 and
orders by name, and both queries are restricted to the operator's assigned
store when the role is receptionist and a (truthy) store is assigned; a
successful fetch replaces the respective in-memory list with the response
(`data || []`); a failed products fetch emits the failure toast and keeps
the prior list; a failed customers fetch keeps the prior list but emits no
user-visible notification (it is only logged), contrary to the original
claim — see `catalog_loader_cex`. -/
theorem catalog_loader_spec :
    (∀ profile : Option Profile,
      (buildProductsQuery profile).stock_gt = some 0 ∧
      (buildProductsQuery profile).order_by = some "name" ∧
      (buildCustomersQuery profile).order_by = some "name") ∧
    (∀ p : Profile, p.role = Role.receptionist → truthyStr p.store_id = true →
      (buildProductsQuery (some p)).store_id_eq = p.store_id ∧
      (buildCustomersQuery (some p)).store_id_eq = p.store_id) ∧
    (∀ p : Profile, ¬ p.role = Role.receptionist →
      (buildProductsQuery (some p)).store_id_eq = none ∧
      (buildCustomersQuery (some p)).store_id_eq = none) ∧
    (∀ (data : Option (List Product)) (products : List Product),
      fetchProductsResult (Except.ok data) products = (data.getD [], [])) ∧
    (∀ products : List Product,
      fetchProductsResult (Except.error ()) products =
        (products, [Toast.mk ToastKind.error "Failed to load products"])) ∧
    (∀ (data : Option (List Customer)) (customers : List Customer),
      fetchCustomersResult (Except.ok data) customers = (data.getD [], [])) ∧
    (∀ customers : List Customer,
      fetchCustomersResult (Except.error ()) customers = (customers, [])) := by
  refine ⟨?_, ?_, ?_, fun d ps => rfl, fun ps => rfl, fun d cs => rfl,
    fun cs => rfl⟩
  · intro profile
    cases profile with
    | none => exact ⟨rfl, rfl, rfl⟩
    | some p =>
      by_cases hc : p.role = Role.receptionist ∧ truthyStr p.store_id = true
      · exact ⟨by simp [buildProductsQuery, hc], by simp [buildProductsQuery, hc],
          by simp [buildCustomersQuery, hc]⟩
      · exact ⟨by simp [buildProductsQuery, hc], by simp [buildProductsQuery, hc],
          by simp [buildCustomersQuery, hc]⟩
  · intro p h1 h2
    constructor
    · simp [buildProductsQuery, h1, h2]
    · simp [buildCustomersQuery, h1, h2]
  · intro p h1
    constructor
    · simp [buildProductsQuery, h1]
    · simp [buildCustomersQuery, h1]

/-- Witness for `catalog_loader_spec`: the receptionist of store s1 gets
store-filtered queries. -/
theorem catalog_loader_spec_witness :
    (buildProductsQuery (some demoProfile)).store_id_eq =
      demoProfile.store_id ∧
    (buildCustomersQuery (some demoProfile)).store_id_eq =
      demoProfile.store_id :=
  catalog_loader_spec.2.1 demoProfile rfl (by decide)

end StoreFlow
